import Mathlib

/-!
Verification of the yano-js progress-driven CSS interpolation core.

Numbers are modelled as rationals (`ℚ`): the source manipulates JS doubles
with ordinary field arithmetic and every claim is stated "exact, modulo
floating-point epsilon", so the rational model is the faithful exact
semantics.  DOM elements are modelled as an opaque identifier type; a CSS
write is recorded as an explicit event so that side effects are visible in
theorem statements.  Code of the repository that is not present in the
source tree (the `mathf` helpers, `MultiInterpolate`/`Interpolate`,
`dom.setCssVariable`, the `Raf` frame scheduler) is modelled from the
specification, as flagged on each such definition.
-/

/-- A DOM element, modelled as an opaque identifier. -/
abbrev Elem := Nat

namespace mathf

/-- Modelled from the spec: `clamp01` clamps a value into the interval
`[0, 1]` (the spec's child-progress formula applies `clamp01` to the
rescaled progress).  The `mathf` module is not present under `src/`. -/
def clamp01 (x : ℚ) : ℚ := max 0 (min 1 x)

/-- Modelled from the spec: `mathf.childProgress` (not present under
`src/`) rescopes a parent progress to a local 0..1 range:
`clamp01((progress - startProgress) / (endProgress - startProgress))` when
`endProgress != startProgress`, else `0`. -/
def childProgress (progress startProgress endProgress : ℚ) : ℚ :=
  if endProgress = startProgress then 0
  else clamp01 ((progress - startProgress) / (endProgress - startProgress))

end mathf

/-- One interpolation segment of an `InterpolationConfig`, as described by
the configuration schema: an input range `from`..`to`, an output range
`start`..`end` and an optional easing function.  Output ranges are numeric
(unit-tagged outputs share the same linear magnitude interpolation and are
out of scope of the claims). -/
structure rangedProgress where
  «from» : ℚ
  «to» : ℚ
  start : ℚ
  «end» : ℚ
  easingFunction : Option (ℚ → ℚ)

/-- One named interpolation configuration: an identifier and its ordered
segment list. -/
structure interpolateConfig where
  id : String
  progress : List rangedProgress

/-- The configuration handed to `MultiInterpolate`: the ordered list of
per-identifier interpolation configs. -/
abbrev multiInterpolateConfig := List interpolateConfig

namespace Interpolate

/-- Modelled from the spec: a segment's input range contains a progress
value inclusively, accounting for reversed ranges by comparing
`min(from,to)..max(from,to)`. -/
def inputRangeContains (s : rangedProgress) (p : ℚ) : Bool :=
  decide (min s.«from» s.«to» ≤ p) && decide (p ≤ max s.«from» s.«to»)

/-- Modelled from the spec: the numeric distance from a progress value to
the nearest boundary of a segment's input range. -/
def boundaryDistance (s : rangedProgress) (p : ℚ) : ℚ :=
  min |p - s.«from»| |p - s.«to»|

/-- Modelled from the spec: select the segment whose input-range boundary
is numerically closest to the progress, ties broken by earliest list
order. -/
def nearestSegment (p : ℚ) : List rangedProgress → Option rangedProgress
  | [] => none
  | s :: rest =>
    match nearestSegment p rest with
    | none => some s
    | some best =>
      if boundaryDistance s p ≤ boundaryDistance best p then some s else some best

/-- Modelled from the spec: evaluate one segment at a progress value.
Normalized local progress is `(p - from) / (to - from)` (defined `0` on a
degenerate range), eased when an easing function is present, then linearly
interpolated across the output range. -/
def segmentValue (s : rangedProgress) (p : ℚ) : ℚ :=
  let t : ℚ :=
    if s.«from» = s.«to» then 0 else (p - s.«from») / (s.«to» - s.«from»)
  let eased : ℚ :=
    match s.easingFunction with
    | some f => f t
    | none => t
  s.start + eased * (s.«end» - s.start)

/-- Modelled from the spec: `Interpolate.calculate` (not present under
`src/`).  The first segment in list order whose input range contains the
progress is active; if none contains it, the nearest segment by
input-range boundary distance (ties to earliest) is used for
extrapolation.  An empty segment list yields `0`. -/
def calculate (segments : List rangedProgress) (p : ℚ) : ℚ :=
  match segments.find? (fun s => inputRangeContains s p) with
  | some s => segmentValue s p
  | none =>
    match nearestSegment p segments with
    | some s => segmentValue s p
    | none => 0

end Interpolate

namespace MultiInterpolate

/-- Modelled from the spec: `MultiInterpolate.calculate` (not present
under `src/`) delegates to an `Interpolate` over each registered config's
segments and collects results keyed by id, in config order. -/
def calculate (config : multiInterpolateConfig) (p : ℚ) : List (String × ℚ) :=
  config.map (fun c => (c.id, Interpolate.calculate c.progress p))

end MultiInterpolate

/-- A recorded CSS-custom-property write: the target element, the property
name and the (stringifiable, here numeric) value. -/
structure CssWrite where
  element : Elem
  name : String
  value : ℚ
deriving DecidableEq

/-- A DOM-level failure surfaced while performing writes. -/
inductive DomError
  | missingElement
deriving DecidableEq

namespace dom

/-- Modelled from the spec: `dom.setCssVariable` (not present under
`src/`) is the CSS variable sink `setProperty(element, name, value)`; it
dereferences the element, so it fails when no element is present. -/
def setCssVariable (element : Option Elem) (name : String) (value : ℚ) :
    Except DomError CssWrite :=
  match element with
  | none => .error .missingElement
  | some e => .ok ⟨e, name, value⟩

/-- Perform a sequence of CSS variable writes in order, stopping at the
first failure: the successfully performed writes together with the error,
if any, that interrupted the loop. -/
def setCssVariables (element : Option Elem) :
    List (String × ℚ) → List CssWrite × Option DomError
  | [] => ([], none)
  | (name, value) :: rest =>
    match setCssVariable element name value with
    | .error e => ([], some e)
    | .ok w =>
      let (ws, err) := setCssVariables element rest
      (w :: ws, err)

end dom

/-- The state of a `CssVarInterpolate` binder, exactly the fields of the
source class: the bound element (JS allows passing a missing element, so
it is optional), the `mainProgress` field (initially `null`), the cached
`currentValues`, the interpolation config backing the internal
`MultiInterpolate`, and the progress range. -/
structure CssVarInterpolate where
  element : Option Elem
  mainProgress : Option ℚ
  currentValues : List (String × ℚ)
  config : multiInterpolateConfig
  startProgress : ℚ
  endProgress : ℚ

namespace CssVarInterpolate

/-- The source constructor: stores the element and config unchecked, sets
`mainProgress` to `null`, `currentValues` to the empty object, and the
progress range to the default `0..1`. -/
def create (element : Option Elem) (config : multiInterpolateConfig) :
    CssVarInterpolate :=
  { element := element
    mainProgress := none
    currentValues := []
    config := config
    startProgress := 0
    endProgress := 1 }

/-- The outcome of one `update` call: the new binder state, the CSS writes
performed, and the error, if any, raised while writing. -/
structure UpdateResult where
  state : CssVarInterpolate
  writes : List CssWrite
  error : Option DomError

/-- The source `update(progress)`: return immediately when
`progress == this.mainProgress` (JS `==`; a number never equals `null`, so
the comparison is `some progress = mainProgress`).  Otherwise set
`mainProgress` to the child progress of `progress` over the stored range,
recompute `currentValues` through `MultiInterpolate.calculate` at that
child progress, and write every resulting key as a CSS variable on the
element. -/
def update (s : CssVarInterpolate) (progress : ℚ) : UpdateResult :=
  if some progress = s.mainProgress then
    ⟨s, [], none⟩
  else
    let mp := mathf.childProgress progress s.startProgress s.endProgress
    let values := MultiInterpolate.calculate s.config mp
    let written := dom.setCssVariables s.element values
    ⟨{ s with mainProgress := some mp, currentValues := values },
      written.1, written.2⟩

/-- The source `setProgressRange(start, end)`: store the new range. -/
def setProgressRange (s : CssVarInterpolate) (start «end» : ℚ) :
    CssVarInterpolate :=
  { s with startProgress := start, endProgress := «end» }

end CssVarInterpolate

/-- The execution phase of one scheduled callback inside a pump cycle:
the three read/write-mode phases plus the undifferentiated simple-tick
callback used when read/write mode is disabled. -/
inductive Phase
  | read
  | write
  | postWrite
  | tick
deriving DecidableEq

/-- The rank of a phase in the fixed Read → Write → PostWrite pump
order. -/
def Phase.rank : Phase → Nat
  | .read => 0
  | .write => 1
  | .postWrite => 2
  | .tick => 3

/-- Modelled from the spec: the state of the `Raf` frame scheduler (not
present under `src/`): three callback queues in registration order, the
single simple-tick callback, the Idle/Running flag and the read/write-mode
flag. -/
structure FrameScheduler (Cb : Type) where
  readQueue : List Cb
  writeQueue : List Cb
  postWriteQueue : List Cb
  tickCallback : Option Cb
  running : Bool
  readWriteMode : Bool

namespace FrameScheduler

/-- Modelled from the spec: enqueue a read callback for the next pump
cycle. -/
def read {Cb : Type} (s : FrameScheduler Cb) (cb : Cb) : FrameScheduler Cb :=
  { s with readQueue := s.readQueue ++ [cb] }

/-- Modelled from the spec: enqueue a write callback for the next pump
cycle. -/
def write {Cb : Type} (s : FrameScheduler Cb) (cb : Cb) : FrameScheduler Cb :=
  { s with writeQueue := s.writeQueue ++ [cb] }

/-- Modelled from the spec: enqueue a post-write callback for the next
pump cycle. -/
def postWrite {Cb : Type} (s : FrameScheduler Cb) (cb : Cb) : FrameScheduler Cb :=
  { s with postWriteQueue := s.postWriteQueue ++ [cb] }

/-- Modelled from the spec: drain the three queues one callback at a time,
always taking the next pending callback of the earliest phase — reads
while any read is pending, then writes, then post-writes — recording the
execution trace. -/
def drain {Cb : Type} : List Cb → List Cb → List Cb → List (Phase × Cb)
  | r :: rs, ws, ps => (Phase.read, r) :: drain rs ws ps
  | [], w :: ws, ps => (Phase.write, w) :: drain [] ws ps
  | [], [], p :: ps => (Phase.postWrite, p) :: drain [] [] ps
  | [], [], [] => []

/-- Modelled from the spec: one pump cycle.  In read/write mode the three
queues are drained in the fixed Read → Write → PostWrite order (single-shot:
the queues are emptied); otherwise the single simple-tick callback runs.
Returns the execution trace of the cycle and the post-cycle state. -/
def pump {Cb : Type} (s : FrameScheduler Cb) :
    List (Phase × Cb) × FrameScheduler Cb :=
  if s.readWriteMode then
    (drain s.readQueue s.writeQueue s.postWriteQueue,
      { s with readQueue := [], writeQueue := [], postWriteQueue := [] })
  else
    match s.tickCallback with
    | some cb => ([(Phase.tick, cb)], s)
    | none => ([], s)

end FrameScheduler

/-- One registered `DomWatcher` config, the fields `run` touches plus the
event name for shape.  `tag` models the JS object identity of the config;
`callback` gives the truthiness of the value the callback returns on its
n-th invocation within one `run` call (JS callbacks are stateful, so
successive invocations may return different values). -/
structure DomWatcherConfig where
  tag : Nat
  element : Option Elem
  «on» : String
  id : Option String
  callback : Nat → Bool

/-- The `DomWatcher`: its registered configs in registration order. -/
structure DomWatcher where
  watcherConfigs : List DomWatcherConfig

namespace DomWatcher

/-- The filter condition of the source `run`: `config.id && config.id == id`.
A missing id is falsy, and so is the empty string, which JS treats as
falsy before the equality is even evaluated. -/
def matchesId (c : DomWatcherConfig) (id : String) : Bool :=
  match c.id with
  | none => false
  | some s => (s != "") && (s == id)

/-- The invocation events `config.callback() && config.callback()`
produces for one config: the first call always happens; the second exactly
when the first returned a truthy value.  Each event is the config's tag
paired with the invocation number. -/
def invocations (c : DomWatcherConfig) : List (Nat × Nat) :=
  if c.callback 0 then [(c.tag, 0), (c.tag, 1)] else [(c.tag, 0)]

/-- The source `run(id)`: filter the registered configs by
`config.id && config.id == id`, then for each, in order, run
`config.callback() && config.callback()`.  Returns the invocation
trace. -/
def run (w : DomWatcher) (id : String) : List (Nat × Nat) :=
  let configsToRun := w.watcherConfigs.filter (fun c => matchesId c id)
  configsToRun.flatMap invocations

/-- The invocation events of the config tagged `tag` within a trace. -/
def eventsFor (trace : List (Nat × Nat)) (tag : Nat) : List (Nat × Nat) :=
  trace.filter (fun e => e.1 == tag)

end DomWatcher

/-- A concrete one-variable interpolation configuration, taken from the
class doc example: `--x` maps progress 0..1 linearly onto 0..500. -/
def sampleConfig : multiInterpolateConfig :=
  [⟨"--x", [⟨0, 1, 0, 500, none⟩]⟩]

/-- A concrete binder over `sampleConfig`, bound to a present element. -/
def sampleBinder : CssVarInterpolate :=
  CssVarInterpolate.create (some 0) sampleConfig

/-- A watcher config registered under the empty-string id. -/
def emptyIdConfig : DomWatcherConfig :=
  ⟨0, some 0, "click", some "", fun _ => true⟩

/-- A watcher config under id `go` whose callback returns a truthy value
on its first invocation and a falsy one afterwards. -/
def goConfig : DomWatcherConfig :=
  ⟨1, some 0, "click", some "go", fun n => n == 0⟩

/-- A watcher config under a different id, `other`. -/
def otherConfig : DomWatcherConfig :=
  ⟨2, some 0, "scroll", some "other", fun _ => false⟩

/-- A concrete scheduler in read/write mode with two queued reads, one
queued write and one queued post-write (callbacks numbered). -/
def sampleScheduler : FrameScheduler Nat :=
  ⟨[10, 11], [20], [30], none, true, true⟩

/-! ### Helper lemmas -/

/-- Writing against a present element performs every requested write, in
order, with no error. -/
theorem dom.setCssVariables_some (e : Elem) (vals : List (String × ℚ)) :
    dom.setCssVariables (some e) vals =
      (vals.map (fun kv => ⟨e, kv.1, kv.2⟩), none) := by
  induction vals with
  | nil => rfl
  | cons kv rest ih =>
    obtain ⟨name, value⟩ := kv
    simp [dom.setCssVariables, dom.setCssVariable, ih]

/-- Writing against a missing element fails on the first requested write:
nothing is written and a missing-element error is raised. -/
theorem dom.setCssVariables_none_cons (kv : String × ℚ)
    (rest : List (String × ℚ)) :
    dom.setCssVariables none (kv :: rest) = ([], some .missingElement) := rfl

/-- An `update` whose raw progress equals the stored `mainProgress`
returns immediately: same state, no writes, no error. -/
theorem CssVarInterpolate.update_culled (s : CssVarInterpolate) (p : ℚ)
    (h : some p = s.mainProgress) : s.update p = ⟨s, [], none⟩ := by
  simp [CssVarInterpolate.update, h]

/-- An `update` whose raw progress differs from the stored `mainProgress`
runs the full pass: it stores the child progress, recomputes
`currentValues` at the child progress, and performs the resulting
writes. -/
theorem CssVarInterpolate.update_accepted (s : CssVarInterpolate) (p : ℚ)
    (h : ¬ some p = s.mainProgress) :
    s.update p =
      ⟨{ s with
          mainProgress :=
            some (mathf.childProgress p s.startProgress s.endProgress)
          currentValues :=
            MultiInterpolate.calculate s.config
              (mathf.childProgress p s.startProgress s.endProgress) },
        (dom.setCssVariables s.element
          (MultiInterpolate.calculate s.config
            (mathf.childProgress p s.startProgress s.endProgress))).1,
        (dom.setCssVariables s.element
          (MultiInterpolate.calculate s.config
            (mathf.childProgress p s.startProgress s.endProgress))).2⟩ := by
  simp [CssVarInterpolate.update, h]

/-- The drain of the three queues is exactly the read queue, then the
write queue, then the post-write queue, each tagged with its phase. -/
theorem FrameScheduler.drain_eq {Cb : Type} (rs ws ps : List Cb) :
    FrameScheduler.drain rs ws ps =
      rs.map (fun c => (Phase.read, c)) ++ ws.map (fun c => (Phase.write, c))
        ++ ps.map (fun c => (Phase.postWrite, c)) := by
  induction rs with
  | cons r rs ihr => simpa [FrameScheduler.drain] using ihr
  | nil =>
    induction ws with
    | cons w ws ihw => simpa [FrameScheduler.drain] using ihw
    | nil =>
      induction ps with
      | cons q ps ihp => simpa [FrameScheduler.drain] using ihp
      | nil => simp [FrameScheduler.drain]

/-- Unfolding `run` over the head of the config list: the head's
invocations (when its id matches) followed by the run over the rest. -/
theorem DomWatcher.run_cons (a : DomWatcherConfig) (l : List DomWatcherConfig)
    (id : String) :
    DomWatcher.run ⟨a :: l⟩ id =
      (if DomWatcher.matchesId a id then DomWatcher.invocations a else [])
        ++ DomWatcher.run ⟨l⟩ id := by
  by_cases h : DomWatcher.matchesId a id <;>
    simp [DomWatcher.run, List.filter_cons, h]

/-- A config's own invocation events are all tagged with its tag. -/
theorem DomWatcher.eventsFor_invocations_self (c : DomWatcherConfig) :
    DomWatcher.eventsFor (DomWatcher.invocations c) c.tag =
      DomWatcher.invocations c := by
  by_cases h : c.callback 0 <;>
    simp [DomWatcher.invocations, DomWatcher.eventsFor, h]

/-- A config's invocation events carry no other tag. -/
theorem DomWatcher.eventsFor_invocations_ne (c : DomWatcherConfig) (k : Nat)
    (h : ¬ c.tag = k) :
    DomWatcher.eventsFor (DomWatcher.invocations c) k = [] := by
  by_cases hc : c.callback 0 <;>
    simp [DomWatcher.invocations, DomWatcher.eventsFor, hc, h]

/-- A run over configs none of which carries tag `k` produces no event
tagged `k`. -/
theorem DomWatcher.eventsFor_run_of_not_mem (l : List DomWatcherConfig)
    (id : String) (k : Nat) (h : ∀ c ∈ l, ¬ c.tag = k) :
    DomWatcher.eventsFor (DomWatcher.run ⟨l⟩ id) k = [] := by
  induction l with
  | nil => simp [DomWatcher.run, DomWatcher.eventsFor]
  | cons a l ih =>
    rw [DomWatcher.run_cons]
    unfold DomWatcher.eventsFor
    rw [List.filter_append]
    have ha : ¬ a.tag = k := h a (by simp)
    have hrest :
        DomWatcher.eventsFor (DomWatcher.run ⟨l⟩ id) k = [] :=
      ih (fun c hc => h c (by simp [hc]))
    unfold DomWatcher.eventsFor at hrest
    rw [hrest]
    by_cases hm : DomWatcher.matchesId a id
    · have h2 := DomWatcher.eventsFor_invocations_ne a k ha
      unfold DomWatcher.eventsFor at h2
      rw [if_pos hm, h2]
      rfl
    · rw [if_neg hm]
      rfl

/-- For a watcher whose configs carry pairwise distinct tags, the events
of a run carrying a given config's tag are exactly that config's own
invocations when its id matches, and there are none otherwise. -/
theorem DomWatcher.eventsFor_run (l : List DomWatcherConfig) (id : String)
    (c : DomWatcherConfig) (hc : c ∈ l)
    (hnd : (l.map (fun x => x.tag)).Nodup) :
    DomWatcher.eventsFor (DomWatcher.run ⟨l⟩ id) c.tag =
      if DomWatcher.matchesId c id then DomWatcher.invocations c else [] := by
  induction l with
  | nil => cases hc
  | cons a l ih =>
    rw [DomWatcher.run_cons]
    unfold DomWatcher.eventsFor
    rw [List.filter_append]
    have hnd' : (l.map (fun x => x.tag)).Nodup := (List.nodup_cons.mp hnd).2
    have hhead : a.tag ∉ l.map (fun x => x.tag) := (List.nodup_cons.mp hnd).1
    rcases List.mem_cons.mp hc with rfl | hmem
    · have hrest :
          DomWatcher.eventsFor (DomWatcher.run ⟨l⟩ id) c.tag = [] := by
        refine DomWatcher.eventsFor_run_of_not_mem l id c.tag ?_
        intro x hx hxk
        exact hhead (by simpa [hxk] using List.mem_map_of_mem (fun y => y.tag) hx)
      unfold DomWatcher.eventsFor at hrest
      rw [hrest]
      by_cases hm : DomWatcher.matchesId c id
      · have h2 := DomWatcher.eventsFor_invocations_self c
        unfold DomWatcher.eventsFor at h2
        rw [if_pos hm, h2, List.append_nil]
      · rw [if_neg hm]
        rfl
    · have hne : ¬ a.tag = c.tag := by
        intro hak
        exact hhead (by simpa [hak] using
          List.mem_map_of_mem (fun y => y.tag) hmem)
      have hihs := ih hmem hnd'
      unfold DomWatcher.eventsFor at hihs
      rw [hihs]
      by_cases hm : DomWatcher.matchesId a id
      · have h2 := DomWatcher.eventsFor_invocations_ne a c.tag hne
        unfold DomWatcher.eventsFor at h2
        rw [if_pos hm, h2, List.nil_append]
      · rw [if_neg hm, List.filter_nil, List.nil_append]

/-- A list of callbacks all tagged with the same phase is trivially
ordered by phase rank. -/
theorem pairwise_rank_map_const {Cb : Type} (ph : Phase) (l : List Cb) :
    (l.map (fun c => (ph, c))).Pairwise
      (fun a b => Phase.rank a.1 ≤ Phase.rank b.1) := by
  induction l with
  | nil => simp
  | cons c l ih => simpa using ih

/-- The child progress of raw progress `0.4` over the range `0.2..0.6` is
`0.5`. -/
theorem childProgress_sample :
    mathf.childProgress (2/5) (1/5) (3/5) = 1/2 := by
  rw [mathf.childProgress, if_neg (by norm_num), mathf.clamp01]
  norm_num [min_def, max_def]

/-- The sample segment evaluated at progress one half yields `250`. -/
theorem sample_calc :
    Interpolate.calculate [⟨0, 1, 0, 500, none⟩] (1/2) = 250 := by
  have hc : Interpolate.inputRangeContains ⟨0, 1, 0, 500, none⟩ (1/2) = true := by
    rw [Interpolate.inputRangeContains]
    norm_num [min_def, max_def]
  simp only [Interpolate.calculate, List.find?, hc, Interpolate.segmentValue]
  norm_num

/-- The first `update(0.4)` on the sample binder scoped to `0.2..0.6`:
a full pass storing child progress `0.5` and writing `--x = 250`. -/
theorem sampleBinder_first_update :
    (sampleBinder.setProgressRange (1/5) (3/5)).update (2/5) =
      ⟨⟨some 0, some (1/2), [("--x", (250:ℚ))], sampleConfig, 1/5, 3/5⟩,
        [⟨0, "--x", (250:ℚ)⟩], none⟩ := by
  rw [CssVarInterpolate.update_accepted _ _ (by simp [sampleBinder,
    CssVarInterpolate.create, CssVarInterpolate.setProgressRange])]
  simp only [sampleBinder, sampleConfig, CssVarInterpolate.create,
    CssVarInterpolate.setProgressRange]
  rw [childProgress_sample]
  simp only [MultiInterpolate.calculate, List.map_cons, List.map_nil,
    sample_calc, dom.setCssVariables_some]

/-! ### Claim theorems -/

/-- C1: the claimed culling contract fails on the code.  The source
compares the incoming raw progress against the stored `mainProgress`,
which holds the *child* progress of the previous accepted call, not the
raw accepted argument.  With the progress range scoped to `0.2..0.6`,
`update(0.4)` stores the child progress `0.5`; an immediately repeated
`update(0.4)` — whose argument equals the previously accepted progress —
is therefore not culled and performs a second full CSS-write pass. -/
theorem c1_culling_fails_on_scoped_range :
    ((sampleBinder.setProgressRange (1/5) (3/5)).update (2/5)).state.mainProgress
        = some (1/2) ∧
    ((sampleBinder.setProgressRange (1/5) (3/5)).update (2/5)).writes ≠ [] ∧
    (((sampleBinder.setProgressRange (1/5) (3/5)).update (2/5)).state.update
        (2/5)).writes ≠ [] := by
  rw [sampleBinder_first_update]
  refine ⟨rfl, by simp, ?_⟩
  rw [CssVarInterpolate.update_accepted _ _ (by simp; norm_num)]
  simp [sampleConfig, MultiInterpolate.calculate, dom.setCssVariables_some]

/-- C2: the stored last-accepted progress is not the raw argument.  After
`setProgressRange(0.2, 0.6)`, the accepted call `update(0.4)` leaves
`mainProgress = 0.5` — the child progress — rather than the raw `0.4` the
claim requires. -/
theorem c2_stored_progress_is_child_progress :
    ((sampleBinder.setProgressRange (1/5) (3/5)).update (2/5)).state.mainProgress
        = some (1/2) ∧
    ((sampleBinder.setProgressRange (1/5) (3/5)).update (2/5)).state.mainProgress
        ≠ some (2/5) := by
  rw [sampleBinder_first_update]
  exact ⟨rfl, by simp; norm_num⟩

/-- C9 counterexample: constructing the binder against a missing element
succeeds — the constructor stores the absent element and initializes its
state without raising — and the missing-element failure only surfaces on
the first `update()`, whose write pass errors with nothing written. -/
theorem c9_counterexample_bind_does_not_fail :
    (CssVarInterpolate.create none sampleConfig).element = none ∧
    (CssVarInterpolate.create none sampleConfig).mainProgress = none ∧
    ((CssVarInterpolate.create none sampleConfig).update (1/2)).error
        = some DomError.missingElement ∧
    ((CssVarInterpolate.create none sampleConfig).update (1/2)).writes = [] := by
  decide

/-- C10 counterexample: a config registered under the empty-string id is
never invoked by `run("")` even though its id equals the argument: the
source's filter `config.id && config.id == id` treats the empty string as
falsy before the equality is evaluated. -/
theorem c10_counterexample_empty_id_not_run :
    emptyIdConfig.id = some "" ∧
    DomWatcher.run ⟨[emptyIdConfig]⟩ "" = [] := by
  decide

/-- Filtering a constant-phase tagged list by its own phase keeps every
entry. -/
theorem filter_phase_map_self {Cb : Type} (ph : Phase) (l : List Cb) :
    (l.map (fun c => (ph, c))).filter (fun e => e.1 == ph) =
      l.map (fun c => (ph, c)) := by
  induction l with
  | nil => rfl
  | cons c l ih => simp [List.filter, ih]

/-- Filtering a constant-phase tagged list by a different phase yields
nothing. -/
theorem filter_phase_map_ne {Cb : Type} (ph qh : Phase) (l : List Cb)
    (h : ¬ ph = qh) :
    (l.map (fun c => (ph, c))).filter (fun e => e.1 == qh) = [] := by
  have hbeq : (ph == qh) = false := by simp [h]
  induction l with
  | nil => rfl
  | cons c l ih => simp [List.filter, ih, hbeq]

/-- Any `update` on the sample binder scoped to `0.2..0.6` stores the
child progress of the raw argument over that range. -/
theorem scoped_sample_update (p : ℚ) :
    ((sampleBinder.setProgressRange (1/5) (3/5)).update p).state.mainProgress =
      some (mathf.childProgress p (1/5) (3/5)) := by
  rw [CssVarInterpolate.update_accepted _ _ (by simp [sampleBinder,
    CssVarInterpolate.create, CssVarInterpolate.setProgressRange])]
  simp [sampleBinder, CssVarInterpolate.create,
    CssVarInterpolate.setProgressRange]

/-- C4: in read/write mode, one pump cycle runs exactly the queued read
callbacks (in registration order), then the queued write callbacks, then
the queued post-write callbacks: the trace restricted to each phase is
that phase's queue in order, and phase ranks are monotone along the whole
trace, so no write executes while a read of the same cycle is pending and
no post-write executes while a write is pending. -/
theorem c4_pump_read_write_order {Cb : Type} (s : FrameScheduler Cb)
    (h : s.readWriteMode = true) :
    ((s.pump.1.filter (fun e => e.1 == Phase.read)).map Prod.snd
        = s.readQueue) ∧
    ((s.pump.1.filter (fun e => e.1 == Phase.write)).map Prod.snd
        = s.writeQueue) ∧
    ((s.pump.1.filter (fun e => e.1 == Phase.postWrite)).map Prod.snd
        = s.postWriteQueue) ∧
    s.pump.1.Pairwise (fun a b => Phase.rank a.1 ≤ Phase.rank b.1) := by
  have hp : s.pump.1 =
      FrameScheduler.drain s.readQueue s.writeQueue s.postWriteQueue := by
    rw [FrameScheduler.pump, if_pos h]
  rw [hp, FrameScheduler.drain_eq]
  refine ⟨?_, ?_, ?_, ?_⟩
  · rw [List.filter_append, List.filter_append, filter_phase_map_self,
      filter_phase_map_ne _ _ _ (by decide),
      filter_phase_map_ne _ _ _ (by decide)]
    simp
  · rw [List.filter_append, List.filter_append,
      filter_phase_map_ne _ _ _ (by decide), filter_phase_map_self,
      filter_phase_map_ne _ _ _ (by decide)]
    simp
  · rw [List.filter_append, List.filter_append,
      filter_phase_map_ne _ _ _ (by decide),
      filter_phase_map_ne _ _ _ (by decide), filter_phase_map_self]
    simp
  · refine List.pairwise_append.mpr
      ⟨List.pairwise_append.mpr
        ⟨pairwise_rank_map_const _ _, pairwise_rank_map_const _ _, ?_⟩,
        pairwise_rank_map_const _ _, ?_⟩
    · intro a ha b hb
      rcases List.mem_map.mp ha with ⟨x, _, rfl⟩
      rcases List.mem_map.mp hb with ⟨y, _, rfl⟩
      simp [Phase.rank]
    · intro a ha b hb
      rcases List.mem_map.mp hb with ⟨y, _, rfl⟩
      rcases List.mem_append.mp ha with h1 | h1 <;>
        rcases List.mem_map.mp h1 with ⟨x, _, rfl⟩ <;> simp [Phase.rank]

/-- C4 witness: the phase-ordering theorem instantiated on the concrete
sample scheduler. -/
theorem c4_witness :
    sampleScheduler.readWriteMode = true ∧
    (((sampleScheduler.pump.1.filter (fun e => e.1 == Phase.read)).map
        Prod.snd = sampleScheduler.readQueue) ∧
      ((sampleScheduler.pump.1.filter (fun e => e.1 == Phase.write)).map
        Prod.snd = sampleScheduler.writeQueue) ∧
      ((sampleScheduler.pump.1.filter (fun e => e.1 == Phase.postWrite)).map
        Prod.snd = sampleScheduler.postWriteQueue) ∧
      sampleScheduler.pump.1.Pairwise
        (fun a b => Phase.rank a.1 ≤ Phase.rank b.1)) :=
  ⟨rfl, c4_pump_read_write_order sampleScheduler rfl⟩

/-- C5: a single segment with input range `0..1` and output range `S..E`
evaluates to `S` at progress `0` and to `E` at progress `1` (exactly, over
the rational model), for any optional easing function that is normalized
(maps eased progress `0` to `0` and `1` to `1`, as §2's "normalized eased
progress" requires of the external easing registry). -/
theorem c5_single_segment_endpoints (S E : ℚ) (ef : Option (ℚ → ℚ))
    (h : ∀ f, ef = some f → f 0 = 0 ∧ f 1 = 1) :
    Interpolate.calculate [⟨0, 1, S, E, ef⟩] 0 = S ∧
    Interpolate.calculate [⟨0, 1, S, E, ef⟩] 1 = E := by
  have hc0 : Interpolate.inputRangeContains ⟨0, 1, S, E, ef⟩ 0 = true := by
    rw [Interpolate.inputRangeContains]
    norm_num [min_def, max_def]
  have hc1 : Interpolate.inputRangeContains ⟨0, 1, S, E, ef⟩ 1 = true := by
    rw [Interpolate.inputRangeContains]
    norm_num [min_def, max_def]
  constructor
  · simp only [Interpolate.calculate, List.find?, hc0,
      Interpolate.segmentValue]
    cases ef with
    | none => norm_num
    | some f => norm_num [(h f rfl).1]
  · simp only [Interpolate.calculate, List.find?, hc1,
      Interpolate.segmentValue]
    cases ef with
    | none => norm_num
    | some f => norm_num [(h f rfl).2]

/-- C5 witness: the endpoint theorem instantiated on the easing-free
segment `0..1 → 3..7`. -/
theorem c5_witness :
    (∀ f, (none : Option (ℚ → ℚ)) = some f → f 0 = 0 ∧ f 1 = 1) ∧
    (Interpolate.calculate [⟨0, 1, 3, 7, none⟩] 0 = 3 ∧
      Interpolate.calculate [⟨0, 1, 3, 7, none⟩] 1 = 7) :=
  And.intro (fun _ hf => nomatch hf)
    (c5_single_segment_endpoints 3 7 none (fun _ hf => nomatch hf))

/-- C3: every accepted `update(p)` hands `MultiInterpolate.calculate` the
child progress, which is `clamp01((p - startProgress) / (endProgress -
startProgress))` when the range is non-degenerate and `0` otherwise; and
on the binder scoped to `0.2..0.6`, `update(0.2)` yields child progress
`0`, `update(0.6)` yields `1`, and `update(0.4)` yields `0.5`. -/
theorem c3_child_progress_scoping (s : CssVarInterpolate) (p : ℚ)
    (h : ¬ some p = s.mainProgress) :
    ((s.update p).state.currentValues =
      MultiInterpolate.calculate s.config
        (if s.endProgress = s.startProgress then 0
         else mathf.clamp01 ((p - s.startProgress) /
           (s.endProgress - s.startProgress)))) ∧
    ((sampleBinder.setProgressRange (1/5) (3/5)).update
        (1/5)).state.mainProgress = some 0 ∧
    ((sampleBinder.setProgressRange (1/5) (3/5)).update
        (3/5)).state.mainProgress = some 1 ∧
    ((sampleBinder.setProgressRange (1/5) (3/5)).update
        (2/5)).state.mainProgress = some (1/2) := by
  refine ⟨?_, ?_, ?_, ?_⟩
  · rw [CssVarInterpolate.update_accepted s p h]
    rfl
  · rw [scoped_sample_update, mathf.childProgress, if_neg (by norm_num),
      mathf.clamp01]
    norm_num [min_def, max_def]
  · rw [scoped_sample_update, mathf.childProgress, if_neg (by norm_num),
      mathf.clamp01]
    norm_num [min_def, max_def]
  · rw [scoped_sample_update, childProgress_sample]

/-- C3 witness: the scoping theorem instantiated on the sample binder at
progress one half. -/
theorem c3_witness :
    (¬ some ((1:ℚ)/2) = sampleBinder.mainProgress) ∧
    (((sampleBinder.update (1/2)).state.currentValues =
      MultiInterpolate.calculate sampleBinder.config
        (if sampleBinder.endProgress = sampleBinder.startProgress then 0
         else mathf.clamp01 ((1/2 - sampleBinder.startProgress) /
           (sampleBinder.endProgress - sampleBinder.startProgress)))) ∧
    ((sampleBinder.setProgressRange (1/5) (3/5)).update
        (1/5)).state.mainProgress = some 0 ∧
    ((sampleBinder.setProgressRange (1/5) (3/5)).update
        (3/5)).state.mainProgress = some 1 ∧
    ((sampleBinder.setProgressRange (1/5) (3/5)).update
        (2/5)).state.mainProgress = some (1/2)) :=
  And.intro (by decide)
    (c3_child_progress_scoping sampleBinder (1/2) (by decide))

/-- C6: every accepted `update(p)` against a present element writes every
`(id, value)` pair that `MultiInterpolate.calculate` returns at the child
progress — in order, one write per pair, with no error.  The statement
quantifies over arbitrary binder states, in particular over arbitrary
previous `currentValues`, so no per-id cache can suppress any individual
write; only the whole-call cull on identical stored progress exists. -/
theorem c6_every_pair_written (s : CssVarInterpolate) (p : ℚ) (e : Elem)
    (he : s.element = some e) (h : ¬ some p = s.mainProgress) :
    (s.update p).writes =
      (MultiInterpolate.calculate s.config
        (mathf.childProgress p s.startProgress s.endProgress)).map
        (fun kv => ⟨e, kv.1, kv.2⟩) ∧
    (s.update p).error = none := by
  rw [CssVarInterpolate.update_accepted s p h]
  constructor
  · show (dom.setCssVariables s.element _).1 = _
    rw [he, dom.setCssVariables_some]
  · show (dom.setCssVariables s.element _).2 = none
    rw [he, dom.setCssVariables_some]

/-- C6 witness: the unconditional-write theorem instantiated on the fresh
sample binder at progress one half. -/
theorem c6_witness :
    sampleBinder.element = some 0 ∧
    (¬ some ((1:ℚ)/2) = sampleBinder.mainProgress) ∧
    ((sampleBinder.update (1/2)).writes =
      (MultiInterpolate.calculate sampleBinder.config
        (mathf.childProgress (1/2) sampleBinder.startProgress
          sampleBinder.endProgress)).map (fun kv => ⟨0, kv.1, kv.2⟩) ∧
    (sampleBinder.update (1/2)).error = none) :=
  And.intro rfl (And.intro (by decide)
    (c6_every_pair_written sampleBinder (1/2) 0 rfl (by decide)))

/-- C7: `setProgressRange(start, end)` changes exactly the two stored
range fields — `mainProgress`, `currentValues`, the element and the config
are untouched, and (being a pure field update in the model) it performs no
interpolation and records no CSS write — while a subsequent accepted
`update` is rescoped through the new range. -/
theorem c7_setProgressRange_only_range (s : CssVarInterpolate) (a b p : ℚ)
    (hp : ¬ some p = s.mainProgress) :
    (s.setProgressRange a b).startProgress = a ∧
    (s.setProgressRange a b).endProgress = b ∧
    (s.setProgressRange a b).mainProgress = s.mainProgress ∧
    (s.setProgressRange a b).currentValues = s.currentValues ∧
    (s.setProgressRange a b).element = s.element ∧
    (s.setProgressRange a b).config = s.config ∧
    ((s.setProgressRange a b).update p).state.currentValues =
      MultiInterpolate.calculate s.config (mathf.childProgress p a b) := by
  refine ⟨rfl, rfl, rfl, rfl, rfl, rfl, ?_⟩
  rw [CssVarInterpolate.update_accepted (s.setProgressRange a b) p hp]
  rfl

/-- C7 witness: the frame theorem instantiated on the sample binder with
the range `0.2..0.6`. -/
theorem c7_witness :
    (¬ some ((1:ℚ)/2) = sampleBinder.mainProgress) ∧
    ((sampleBinder.setProgressRange (1/5) (3/5)).startProgress = 1/5 ∧
    (sampleBinder.setProgressRange (1/5) (3/5)).endProgress = 3/5 ∧
    (sampleBinder.setProgressRange (1/5) (3/5)).mainProgress =
      sampleBinder.mainProgress ∧
    (sampleBinder.setProgressRange (1/5) (3/5)).currentValues =
      sampleBinder.currentValues ∧
    (sampleBinder.setProgressRange (1/5) (3/5)).element =
      sampleBinder.element ∧
    (sampleBinder.setProgressRange (1/5) (3/5)).config =
      sampleBinder.config ∧
    ((sampleBinder.setProgressRange (1/5) (3/5)).update
        (1/2)).state.currentValues =
      MultiInterpolate.calculate sampleBinder.config
        (mathf.childProgress (1/2) (1/5) (3/5))) :=
  And.intro (by decide)
    (c7_setProgressRange_only_range sampleBinder (1/5) (3/5) (1/2)
      (by decide))

/-- C8: a newly constructed binder stores the `null` sentinel as its last
progress, so its first `update(p)` is never culled for any `p` (including
`0`, since a JS number never `==`-equals `null`): it stores the child
progress over the default range `0..1`, recomputes `currentValues`, and
performs the resulting write pass. -/
theorem c8_first_update_never_culled (el : Option Elem)
    (cfg : multiInterpolateConfig) (p : ℚ) :
    (CssVarInterpolate.create el cfg).mainProgress = none ∧
    ((CssVarInterpolate.create el cfg).update p).state.mainProgress =
      some (mathf.childProgress p 0 1) ∧
    ((CssVarInterpolate.create el cfg).update p).state.currentValues =
      MultiInterpolate.calculate cfg (mathf.childProgress p 0 1) ∧
    ((CssVarInterpolate.create el cfg).update p).writes =
      (dom.setCssVariables el
        (MultiInterpolate.calculate cfg (mathf.childProgress p 0 1))).1 := by
  exact ⟨rfl, rfl, rfl, rfl⟩

/-- C9 amended: construction against a missing element still succeeds —
the element and the sentinel are stored unchecked — and for any non-empty
interpolation config the first `update()` call is where the missing
element surfaces: its write pass raises the missing-element error and
writes nothing. -/
theorem c9_amended_fails_on_first_update (cfg : multiInterpolateConfig)
    (p : ℚ) (h : cfg ≠ []) :
    (CssVarInterpolate.create none cfg).element = none ∧
    (CssVarInterpolate.create none cfg).mainProgress = none ∧
    ((CssVarInterpolate.create none cfg).update p).error =
      some DomError.missingElement ∧
    ((CssVarInterpolate.create none cfg).update p).writes = [] := by
  refine ⟨rfl, rfl, ?_, ?_⟩ <;>
  · rw [CssVarInterpolate.update_accepted _ _
      (by simp [CssVarInterpolate.create])]
    cases cfg with
    | nil => exact absurd rfl h
    | cons c rest =>
      simp [MultiInterpolate.calculate, dom.setCssVariables,
        dom.setCssVariable, CssVarInterpolate.create]

/-- C9 amended witness: the deferred-failure theorem instantiated on the
sample config at progress zero. -/
theorem c9_amended_witness :
    sampleConfig ≠ [] ∧
    ((CssVarInterpolate.create none sampleConfig).element = none ∧
    (CssVarInterpolate.create none sampleConfig).mainProgress = none ∧
    ((CssVarInterpolate.create none sampleConfig).update 0).error =
      some DomError.missingElement ∧
    ((CssVarInterpolate.create none sampleConfig).update 0).writes = []) :=
  And.intro (by simp [sampleConfig])
    (c9_amended_fails_on_first_update sampleConfig 0 (by simp [sampleConfig]))

/-- C10 amended: for a watcher whose registered configs carry distinct
object identities, `run(id)` invokes exactly the configs whose id is
present, non-empty (the source filter `config.id && config.id == id`
treats the empty string as falsy) and equal to the argument; each such
config is invoked a second time within the same run exactly when its first
invocation returned a truthy value, and configs with a different, absent
or empty id are not invoked at all. -/
theorem c10_amended_run_invocations (w : DomWatcher) (id : String)
    (c : DomWatcherConfig) (hc : c ∈ w.watcherConfigs)
    (hnd : (w.watcherConfigs.map (fun x => x.tag)).Nodup) :
    DomWatcher.eventsFor (w.run id) c.tag =
      match c.id with
      | some str =>
        if str ≠ "" ∧ str = id then
          if c.callback 0 then [(c.tag, 0), (c.tag, 1)] else [(c.tag, 0)]
        else []
      | none => [] := by
  obtain ⟨l⟩ := w
  rw [DomWatcher.eventsFor_run l id c hc hnd]
  cases hcid : c.id with
  | none => simp [DomWatcher.matchesId, hcid]
  | some str =>
    by_cases h1 : str = ""
    · subst h1
      simp [DomWatcher.matchesId, hcid]
    · by_cases h2 : str = id
      · simp [DomWatcher.matchesId, DomWatcher.invocations, hcid, h1, h2]
      · simp [DomWatcher.matchesId, hcid, h1, h2]

/-- C10 amended witness: the run theorem instantiated on a concrete
watcher holding the `go` and `other` configs, run with id `go`. -/
theorem c10_amended_witness :
    goConfig ∈ (⟨[goConfig, otherConfig]⟩ : DomWatcher).watcherConfigs ∧
    ((⟨[goConfig, otherConfig]⟩ : DomWatcher).watcherConfigs.map
      (fun x => x.tag)).Nodup ∧
    DomWatcher.eventsFor
        ((⟨[goConfig, otherConfig]⟩ : DomWatcher).run "go") goConfig.tag =
      match goConfig.id with
      | some str =>
        if str ≠ "" ∧ str = "go" then
          if goConfig.callback 0 then
            [(goConfig.tag, 0), (goConfig.tag, 1)]
          else [(goConfig.tag, 0)]
        else []
      | none => [] :=
  And.intro (by simp)
    (And.intro (by decide)
      (c10_amended_run_invocations ⟨[goConfig, otherConfig]⟩ "go" goConfig
        (by simp) (by decide)))
